import Mathlib

/-!
Verification of the pmail repository: a shallow embedding of
`src/mail_client.py` (the `MailClient.send_email` composer and transport
boundary), `src/scheduler.py` (the `EmailScheduler` registration methods)
and `config/email_config.py` (the `EmailConfig` record), together with
theorems settling the specification claims about them.

Conventions of the embedding:
- Python `Optional[str]` becomes `Option String`; Python truthiness of an
  optional string (`if body:` is false for both `None` and `""`) is the
  function `pyTruthy`.
- The file system visible to the composer is a finite association list
  from path strings to entries (regular file with byte content, or a
  non-file entry such as a directory).
- `mimetypes.guess_type` is a Python-library dependency, so it is kept
  abstract: a parameter returning the optional content type and the
  optional encoding, exactly the pair the source destructures.
- The SMTP session is kept abstract as a parameter producing one
  `TransportOutcome` per invocation; `send_email` records every
  invocation (the recipient list passed) in its result, so "the transport
  was never invoked" and "no retry" are statable.
- The `now : Nat` parameter of `compose`/`send_email` models the ambient
  wall-clock time available to the process.  The source never reads a
  clock while composing, so the definition never inspects it; claim C8
  (no timestamp-dependent content) is provable as independence from it.
-/

namespace Pmail

/-- Python truthiness of an optional string: `None` and `""` are falsy. -/
def pyTruthy : Option String → Bool
  | none => false
  | some s => !(s == "")

/-- Python `a or b` on strings: the left operand unless it is falsy. -/
def pyOrS (a b : String) : String := if a == "" then b else a

/-- Mirror of `config/email_config.py` class `EmailConfig`: the fields read
by `send_email` (server coordinates, credentials, default sender, TLS flag). -/
structure EmailConfig where
  smtp_server : String
  smtp_port : Nat
  gmail_address : String
  gmail_password : String
  default_sender : String
  use_tls : Bool
deriving DecidableEq, Repr

/-- A file-system entry: a regular file with byte content, or a non-file
entry (directory, device, ...), which `Path.is_file` rejects. -/
inductive FSEntry
  | file (content : List Nat)
  | nonfile
deriving DecidableEq, Repr

/-- The file system seen by the composer: a finite map from path strings
to entries. -/
def FS := List (String × FSEntry)

/-- Look a path up in the file system. -/
def FS.find (fs : FS) (p : String) : Option FSEntry :=
  match fs with
  | [] => none
  | (q, e) :: rest => if q == p then some e else FS.find rest p

/-- Mirror of `Path.exists()`. -/
def FS.pathExists (fs : FS) (p : String) : Bool :=
  (fs.find p).isSome

/-- Mirror of `Path.is_file()`. -/
def FS.isRegularFile (fs : FS) (p : String) : Bool :=
  match fs.find p with
  | some (.file _) => true
  | _ => false

/-- Mirror of `open(file_path, "rb").read()` for a validated path. -/
def FS.readBytes (fs : FS) (p : String) : List Nat :=
  match fs.find p with
  | some (.file c) => c
  | _ => []

/-- Split a character list on a separator character.  Helper used instead
of the library string splitter so every definition reduces in the kernel. -/
def splitOnCharAux (sep : Char) : List Char → List Char → List (List Char)
  | [], acc => [acc.reverse]
  | c :: cs, acc =>
    if c == sep then acc.reverse :: splitOnCharAux sep cs []
    else splitOnCharAux sep cs (c :: acc)

/-- Mirror of `Path(att_path).name`: the final non-empty path component. -/
def pathName (p : String) : String :=
  ((((splitOnCharAux '/' p.toList []).map String.mk).filter
      (fun s => !(s == ""))).getLast?).getD ""

/-- The whitespace characters removed by Python `str.strip()` (the ASCII
ones; the source never feeds it non-ASCII whitespace-relevant input). -/
def isStripChar (c : Char) : Bool :=
  c == ' ' || c == '\t' || c == '\n' || c == '\r' || c == '\x0b' || c == '\x0c'

/-- Mirror of Python `str.strip()`: drop whitespace from both ends. -/
def pyStrip (s : String) : String :=
  String.mk (((s.toList.dropWhile isStripChar).reverse.dropWhile isStripChar).reverse)

/-- Mirror of Python `sep.join(xs)`. -/
def joinWith (sep : String) : List String → String
  | [] => ""
  | [x] => x
  | x :: y :: xs => x ++ sep ++ joinWith sep (y :: xs)

/-- Find the first `>` in the character list; on success return the
characters before it and the remainder after it.  Helper for the tag
stripper below. -/
def findGt : List Char → Option (List Char × List Char)
  | [] => none
  | c :: cs =>
    if c == '>' then some ([], cs)
    else
      match findGt cs with
      | none => none
      | some (b, a) => some (c :: b, a)

/-- Fuel-indexed scanner mirroring Python `re.sub` with the tag pattern
"angle bracket, one or more non-closing characters, closing angle
bracket", replacement by the empty string: leftmost matches are removed,
scanning resumes after each removed match; an opening bracket with no
eligible match is kept verbatim.  The fuel only bounds recursion; with
fuel at least the list length the scan always completes (each step
consumes at least one character). -/
def stripTagsAux : Nat → List Char → List Char
  | 0, l => l
  | _ + 1, [] => []
  | fuel + 1, c :: cs =>
    if c == '<' then
      match findGt cs with
      | some ([], _) => c :: stripTagsAux fuel cs
      | some (_ :: _, a) => stripTagsAux fuel a
      | none => c :: stripTagsAux fuel cs
    else c :: stripTagsAux fuel cs

/-- Mirror of line 94 of `mail_client.py`: remove markup tags from the
HTML string (the regex substitution), without the trailing `.strip()`. -/
def stripTags (s : String) : String :=
  String.mk (stripTagsAux s.length s.toList)

/-- The fixed placeholder sentence of line 96 of `mail_client.py`. -/
def htmlFallbackPlaceholder : String :=
  "This email contains HTML content. Please view in an HTML-compatible email client."

/-- A send request: the arguments of `MailClient.send_email` after the
string-to-list normalization of lines 98-109 (a single address string
becomes a one-element list; absent cc/bcc/attachments become empty
lists). -/
structure SendRequest where
  «to» : List String
  subject : String
  body : Option String
  body_html : Option String
  from_address : Option String
  cc : List String
  bcc : List String
  attachments : List String
deriving DecidableEq, Repr

/-- A composed attachment MIME part: `MIMEBase(maintype, subtype)` with a
base64 payload and the Content-Disposition header of lines 165-175. -/
structure AttachmentPart where
  maintype : String
  subtype : String
  payloadB64 : String
  contentDisposition : String
deriving DecidableEq, Repr

/-- The composed MIME tree: `MIMEText(content, subtype)` leaves,
`MIMEMultipart(subtype)` containers, and attachment parts. -/
inductive MimeTree
  | text (subtype : String) (content : String)
  | multipart (subtype : String) (children : List MimeTree)
  | attachment (a : AttachmentPart)

/-- The composed message: the MIME tree plus the headers set by lines
198-204 of `mail_client.py`, in assignment order. -/
structure ComposedMessage where
  tree : MimeTree
  headers : List (String × String)

/-- The error kinds a send can fail with before the transport phase,
plus the transport failure recorded at the outer boundary. -/
inductive SendError
  | missingBody
  | attachmentNotFound (path : String)
  | attachmentNotAFile (path : String)
  | attachFailed (path : String)
  | transportError
deriving DecidableEq, Repr

/-- Result of the composition phase (lines 84-211): a composed message
plus the flat transport recipient list, or an error. -/
inductive ComposeResult
  | ok (msg : ComposedMessage) (recipients : List String)
  | err (e : SendError)

/-- The base64 alphabet. -/
def base64Alphabet : List Char :=
  "ABCDEFGHIJKLMNOPQRSTUVWXYZabcdefghijklmnopqrstuvwxyz0123456789+/".toList

/-- The base64 digit for a 6-bit value. -/
def b64Digit (n : Nat) : Char := base64Alphabet.getD n 'A'

/-- Plain base64 of a byte list (each input treated modulo 256), with the
usual padding. -/
def base64Core : List Nat → List Char
  | [] => []
  | [a] =>
    let a := a % 256
    [b64Digit (a / 4), b64Digit (a % 4 * 16), '=', '=']
  | [a, b] =>
    let a := a % 256
    let b := b % 256
    [b64Digit (a / 4), b64Digit (a % 4 * 16 + b / 16), b64Digit (b % 16 * 4), '=']
  | a :: b :: c :: rest =>
    let a := a % 256
    let b := b % 256
    let c := c % 256
    b64Digit (a / 4) :: b64Digit (a % 4 * 16 + b / 16) ::
      b64Digit (b % 16 * 4 + c / 64) :: b64Digit (c % 64) :: base64Core rest

/-- Split a byte list into 57-byte groups (fuel-bounded; fuel at least the
list length always suffices). -/
def chunk57 : Nat → List Nat → List (List Nat)
  | _, [] => []
  | 0, l => [l]
  | fuel + 1, l => l.take 57 :: chunk57 fuel (l.drop 57)

/-- Mirror of `encoders.encode_base64`, whose payload transform is
`base64.encodebytes`: each 57-byte group of the input becomes one 76-char
base64 line terminated by a newline. -/
def encodebytes (bs : List Nat) : String :=
  joinWith "" ((chunk57 bs.length bs).map (fun c => String.mk (base64Core c) ++ "\n"))

/-- The type of `mimetypes.guess_type`, kept abstract: for a path it
returns the optional content type and the optional encoding. -/
def GuessFn := String → Option String × Option String

/-- Mirror of lines 157-159 of `mail_client.py`: the guessed content type,
replaced by the generic binary type when it is missing or an encoding is
reported. -/
def guessedContentType (guess : GuessFn) (p : String) : String :=
  let g := guess p
  if g.1.isNone || g.2.isSome then "application/octet-stream" else g.1.getD ""

/-- Mirror of line 161, the split of the content type at the first slash
unpacked into maintype and subtype; `none` mirrors the unpack failure when
no slash is present (caught by the per-attachment handler). -/
def splitSlash1 (s : String) : Option (String × String) :=
  match (splitOnCharAux '/' s.toList []).map String.mk with
  | [] => none
  | [_] => none
  | m :: rest => some (m, joinWith "/" rest)

/-- Mirror of lines 154-177 for one attachment path: guess and split the
content type, read the file bytes, base64-encode them, and set the
Content-Disposition header carrying the file name.  `none` mirrors any
failure inside the per-attachment handler (unsplittable type, unreadable
path), which makes the send return early. -/
def buildAttachment (fs : FS) (guess : GuessFn) (p : String) : Option AttachmentPart :=
  match fs.find p, splitSlash1 (guessedContentType guess p) with
  | some (.file content), some (mt, st) =>
    some { maintype := mt, subtype := st,
           payloadB64 := encodebytes content,
           contentDisposition := "attachment; filename=" ++ pathName p }
  | _, _ => none

/-- Build all attachment parts in input order, stopping at the first
failing path (the per-attachment handler of lines 180-182 returns early). -/
def buildAttachments (fs : FS) (guess : GuessFn) : List String → Except String (List AttachmentPart)
  | [] => .ok []
  | p :: ps =>
    match buildAttachment fs guess p with
    | none => .error p
    | some a =>
      match buildAttachments fs guess ps with
      | .error q => .error q
      | .ok rest => .ok (a :: rest)

/-- Mirror of the validation loop of lines 110-122: scan the attachment
paths in order and report the first offending one — not existing, or
existing but not a regular file. -/
def firstBadAttachment (fs : FS) : List String → Option SendError
  | [] => none
  | p :: ps =>
    if !(fs.pathExists p) then some (.attachmentNotFound p)
    else if !(fs.isRegularFile p) then some (.attachmentNotAFile p)
    else firstBadAttachment fs ps

/-- Mirror of lines 90-97: the effective plain-text body.  When the plain
body is falsy and the HTML body is truthy, strip the tags from the HTML
and trim; if that is empty, use the fixed placeholder.  Otherwise the
given plain body (this branch is only reached under the line-85 guard, so
the body is then truthy). -/
def effBody (r : SendRequest) : String :=
  if !(pyTruthy r.body) && pyTruthy r.body_html then
    let stripped := pyStrip (stripTags (r.body_html.getD ""))
    if stripped == "" then htmlFallbackPlaceholder else stripped
  else r.body.getD ""

/-- Mirror of lines 198-204: the headers set on the composed message, in
assignment order; the Cc header only when the cc list is truthy, and no
Bcc header ever. -/
def composeHeaders (cfg : EmailConfig) (r : SendRequest) : List (String × String) :=
  [("Subject", r.subject),
   ("From", pyOrS (r.from_address.getD "") (pyOrS cfg.default_sender cfg.gmail_address)),
   ("To", joinWith ", " r.to)]
  ++ (if r.cc.isEmpty then [] else [("Cc", joinWith ", " r.cc)])

/-- Mirror of lines 206-211: the flat recipient list handed to the
transport — to, then cc, then bcc. -/
def allRecipients (r : SendRequest) : List String :=
  r.to ++ r.cc ++ r.bcc

/-- Mirror of the body-part construction of lines 140-148 (and the
identical no-attachment branches of lines 186-195): an alternative part
holding plain then HTML when the HTML body is truthy, otherwise a single
plain-text part. -/
def bodyPartOf (r : SendRequest) : MimeTree :=
  if pyTruthy r.body_html then
    .multipart "alternative"
      [.text "plain" (effBody r), .text "html" (r.body_html.getD "")]
  else .text "plain" (effBody r)

/-- Mirror of the composition phase of `send_email` (lines 84-211): the
missing-body guard, the HTML fallback, the attachment validation, the
structural decision (mixed when attachments are present, alternative when
HTML is present, otherwise a single plain-text part), the attachment
parts, and the headers.  The `now` parameter is the ambient wall-clock
time; the source reads no clock while composing, so it is never
inspected. -/
def compose (now : Nat) (cfg : EmailConfig) (fs : FS) (guess : GuessFn)
    (r : SendRequest) : ComposeResult :=
  if !(pyTruthy r.body) && !(pyTruthy r.body_html) then .err .missingBody
  else
    match firstBadAttachment fs r.attachments with
    | some e => .err e
    | none =>
      match r.attachments with
      | [] => .ok { tree := bodyPartOf r, headers := composeHeaders cfg r } (allRecipients r)
      | _ :: _ =>
        match buildAttachments fs guess r.attachments with
        | .error p => .err (.attachFailed p)
        | .ok atts =>
          .ok { tree := .multipart "mixed" (bodyPartOf r :: atts.map MimeTree.attachment),
                headers := composeHeaders cfg r }
             (allRecipients r)

/-- Outcome of one SMTP session (lines 216-227): delivery, or an
exception raised during connection, TLS negotiation, authentication or
transmission — all caught at the outer boundary of `send_email`. -/
inductive TransportOutcome
  | delivered
  | connectError
  | tlsError
  | authError
  | transmitError
deriving DecidableEq, Repr

/-- Result of one `send_email` call: the boolean the caller observes, the
recipient list of every transport invocation (so "never invoked" and "no
retry" are observable), and the error kind taken, if any. -/
structure SendResult where
  success : Bool
  transportCalls : List (List String)
  error : Option SendError

/-- Mirror of `MailClient.send_email`: compose, then hand the message to
the SMTP session exactly once; every composition error and every
transport exception is caught and reported as the boolean false — the
function is total and never propagates a failure. -/
def send_email (now : Nat) (cfg : EmailConfig) (fs : FS) (guess : GuessFn)
    (transport : ComposedMessage → List String → TransportOutcome)
    (r : SendRequest) : SendResult :=
  match compose now cfg fs guess r with
  | .err e => { success := false, transportCalls := [], error := some e }
  | .ok m recips =>
    match transport m recips with
    | .delivered => { success := true, transportCalls := [recips], error := none }
    | _ => { success := false, transportCalls := [recips], error := some .transportError }

/-- The schedule kind of a registered job (`src/scheduler.py`). -/
inductive ScheduleSpec
  | daily (time_str : String)
  | weekly (day : String) (time_str : String)
  | interval (interval_minutes : Nat)
deriving DecidableEq, Repr

/-- A job registered with the scheduler: its schedule and the send
request its closure will pass to `MailClient.send_email` when due. -/
structure ScheduledJob where
  spec : ScheduleSpec
  request : SendRequest
deriving DecidableEq, Repr

/-- Mirror of `EmailScheduler.schedule_daily` (lines 46-68): the closure
calls `send_email` with the captured to/subject/body/body_html and
`attachments=None`; from_address, cc and bcc are left at their defaults. -/
def schedule_daily (time_str : String) (recipients : List String) (subject : String)
    (body body_html : Option String) : ScheduledJob :=
  { spec := .daily time_str,
    request := { «to» := recipients, subject := subject, body := body,
                 body_html := body_html, from_address := none,
                 cc := [], bcc := [], attachments := [] } }

/-- Mirror of `EmailScheduler.schedule_weekly` (lines 70-94). -/
def schedule_weekly (day : String) (time_str : String) (recipients : List String)
    (subject : String) (body body_html : Option String) : ScheduledJob :=
  { spec := .weekly day time_str,
    request := { «to» := recipients, subject := subject, body := body,
                 body_html := body_html, from_address := none,
                 cc := [], bcc := [], attachments := [] } }

/-- Mirror of `EmailScheduler.schedule_interval` (lines 96-118). -/
def schedule_interval (interval_minutes : Nat) (recipients : List String)
    (subject : String) (body body_html : Option String) : ScheduledJob :=
  { spec := .interval interval_minutes,
    request := { «to» := recipients, subject := subject, body := body,
                 body_html := body_html, from_address := none,
                 cc := [], bcc := [], attachments := [] } }

/-- The plain-text content a receiving client would extract from a
composed tree of the shapes the composer produces: a plain leaf, the
plain leaf of an alternative part, or the same at the head of a mixed
container. -/
def MimeTree.firstPlainText : MimeTree → Option String
  | .text "plain" s => some s
  | .multipart "alternative" (MimeTree.text "plain" s :: _) => some s
  | .multipart "mixed" (MimeTree.text "plain" s :: _) => some s
  | .multipart "mixed" (MimeTree.multipart "alternative" (MimeTree.text "plain" s :: _) :: _) => some s
  | _ => none

/-- The immediate children of a multipart container (empty for leaves). -/
def MimeTree.children : MimeTree → List MimeTree
  | .multipart _ cs => cs
  | _ => []

/-- The composed message of a composition result, or the given default. -/
def ComposeResult.msgOr (d : ComposedMessage) : ComposeResult → ComposedMessage
  | .ok m _ => m
  | .err _ => d

/-- The transport recipient list of a composition result, or the given
default. -/
def ComposeResult.recipientsOr (d : List String) : ComposeResult → List String
  | .ok _ recips => recips
  | .err _ => d

/-! Concrete example inputs used by the witnesses. -/

/-- An example configuration. -/
def exCfg : EmailConfig :=
  { smtp_server := "smtp.gmail.com", smtp_port := 587,
    gmail_address := "acct@gmail.com", gmail_password := "pw",
    default_sender := "sender@gmail.com", use_tls := true }

/-- An example content-type table: a text file, a gzip-compressed tar
(where the library reports an encoding, so the type is ambiguous), and
nothing for any other path. -/
def exGuess : GuessFn := fun p =>
  if p == "docs/report.txt" then (some "text/plain", none)
  else if p == "a.tar.gz" then (some "application/x-tar", some "gzip")
  else (none, none)

/-- An example file system: one regular file (bytes of "Hi"), one
compressed archive, one directory. -/
def exFS : FS :=
  [("docs/report.txt", .file [72, 105]),
   ("a.tar.gz", .file [31, 139, 8]),
   ("somedir", .nonfile)]

/-- A default empty composed message, used as the fallback of `msgOr`. -/
def emptyMsg : ComposedMessage := { tree := .text "plain" "", headers := [] }

/-- A transport that always delivers. -/
def txOk : ComposedMessage → List String → TransportOutcome := fun _ _ => .delivered

/-- A transport that always fails authentication. -/
def txAuthFail : ComposedMessage → List String → TransportOutcome := fun _ _ => .authError

/-- Example request: plain body only. -/
def reqPlainOnly : SendRequest :=
  { «to» := ["a@x.com"], subject := "Hi", body := some "hello", body_html := none,
    from_address := none, cc := [], bcc := [], attachments := [] }

/-- Example request: HTML body only. -/
def reqHtmlOnly : SendRequest :=
  { «to» := ["a@x.com"], subject := "HtmlNews", body := none, body_html := some "<p>Hi</p>",
    from_address := none, cc := [], bcc := [], attachments := [] }

/-- Example request: neither body. -/
def reqNoBody : SendRequest :=
  { «to» := ["a@x.com"], subject := "Empty", body := none, body_html := none,
    from_address := none, cc := [], bcc := [], attachments := [] }

/-- Example request: empty-string plain body together with an HTML body. -/
def reqEmptyBodyHtml : SendRequest :=
  { «to» := ["a@x.com"], subject := "EmptyPlain", body := some "", body_html := some "<p>Hi</p>",
    from_address := none, cc := [], bcc := [], attachments := [] }

/-- Example request: plain body with a non-existent attachment path. -/
def reqMissingAtt : SendRequest :=
  { «to» := ["a@x.com"], subject := "WithAtt", body := some "hello", body_html := none,
    from_address := none, cc := [], bcc := [], attachments := ["missing.txt"] }

/-- Example request: both bodies, cc, bcc, and one existing attachment. -/
def reqWithAtt : SendRequest :=
  { «to» := ["a@x.com"], subject := "Greetings", body := some "hello",
    body_html := some "<b>Bold</b>", from_address := none,
    cc := ["c@x.com"], bcc := ["b@x.com"], attachments := ["docs/report.txt"] }

/-- The attachment part the composer builds for "docs/report.txt" over
the example file system: text/plain, base64 of the bytes of "Hi", and the
disposition carrying the file name. -/
def exAttPart : AttachmentPart :=
  { maintype := "text", subtype := "plain", payloadB64 := "SGk=\n",
    contentDisposition := "attachment; filename=report.txt" }

/-- The message composed from `reqWithAtt` over the example inputs. -/
def exMsgWithAtt : ComposedMessage :=
  { tree := .multipart "mixed"
      [.multipart "alternative" [.text "plain" "hello", .text "html" "<b>Bold</b>"],
       .attachment exAttPart],
    headers := [("Subject", "Greetings"), ("From", "sender@gmail.com"),
                ("To", "a@x.com"), ("Cc", "c@x.com")] }

/-- The transport recipient list of `reqWithAtt`. -/
def exRecipsWithAtt : List String := ["a@x.com", "c@x.com", "b@x.com"]

/-- The message composed from `reqPlainOnly` over the example inputs. -/
def exMsgPlainOnly : ComposedMessage :=
  { tree := .text "plain" "hello",
    headers := [("Subject", "Hi"), ("From", "sender@gmail.com"), ("To", "a@x.com")] }

/-- The transport recipient list of `reqPlainOnly`. -/
def exRecipsPlainOnly : List String := ["a@x.com"]

end Pmail

/-!
Helper lemmas about the embedding, followed by the claim theorems and
their witnesses.
-/

namespace Pmail

theorem buildAttachments_length (fs : FS) (guess : GuessFn) (l : List String) :
    ∀ atts, buildAttachments fs guess l = .ok atts → atts.length = l.length := by
  induction l with
  | nil =>
    intro atts h
    simp only [buildAttachments] at h
    injection h with h1
    simp [← h1]
  | cons q ps ih =>
    intro atts h
    cases hb : buildAttachment fs guess q with
    | none => simp [buildAttachments, hb] at h
    | some a =>
      cases hr : buildAttachments fs guess ps with
      | error e => simp [buildAttachments, hb, hr] at h
      | ok rest =>
        simp only [buildAttachments, hb, hr] at h
        injection h with h1
        subst h1
        simp [ih rest hr]

theorem buildAttachments_mem (fs : FS) (guess : GuessFn) (l : List String) :
    ∀ atts, buildAttachments fs guess l = .ok atts →
      ∀ p ∈ l, ∃ a ∈ atts, buildAttachment fs guess p = some a := by
  induction l with
  | nil => intro atts _ p hp; exact absurd hp (by simp)
  | cons q ps ih =>
    intro atts h p hp
    cases hb : buildAttachment fs guess q with
    | none => simp [buildAttachments, hb] at h
    | some a =>
      cases hr : buildAttachments fs guess ps with
      | error e => simp [buildAttachments, hb, hr] at h
      | ok rest =>
        simp only [buildAttachments, hb, hr] at h
        injection h with h1
        subst h1
        rcases List.mem_cons.mp hp with hpq | hpm
        · exact ⟨a, by simp, hpq ▸ hb⟩
        · rcases ih rest hr p hpm with ⟨b, hb1, hb2⟩
          exact ⟨b, by simp [hb1], hb2⟩

theorem buildAttachments_get (fs : FS) (guess : GuessFn) (l : List String) :
    ∀ atts, buildAttachments fs guess l = .ok atts →
      ∀ (i : Nat) (hi : i < l.length) (hj : i < atts.length),
        buildAttachment fs guess (l.get ⟨i, hi⟩) = some (atts.get ⟨i, hj⟩) := by
  induction l with
  | nil => intro atts _ i hi; exact absurd hi (by simp)
  | cons q ps ih =>
    intro atts h i hi hj
    cases hb : buildAttachment fs guess q with
    | none => simp [buildAttachments, hb] at h
    | some a =>
      cases hr : buildAttachments fs guess ps with
      | error e => simp [buildAttachments, hb, hr] at h
      | ok rest =>
        simp only [buildAttachments, hb, hr] at h
        injection h with h1
        subst h1
        cases i with
        | zero => simpa using hb
        | succ n =>
          simp only [List.get]
          exact ih rest hr n (by simpa using hi) (by simpa using hj)


theorem compose_ok_shape (now : Nat) (cfg : EmailConfig) (fs : FS) (guess : GuessFn)
    (r : SendRequest) (m : ComposedMessage) (recips : List String)
    (h : compose now cfg fs guess r = .ok m recips) :
    (pyTruthy r.body || pyTruthy r.body_html) = true ∧
    firstBadAttachment fs r.attachments = none ∧
    recips = allRecipients r ∧
    m.headers = composeHeaders cfg r ∧
    ((r.attachments = [] ∧ m.tree = bodyPartOf r) ∨
     (r.attachments ≠ [] ∧ ∃ atts, buildAttachments fs guess r.attachments = .ok atts ∧
        m.tree = .multipart "mixed" (bodyPartOf r :: atts.map MimeTree.attachment))) := by
  unfold compose at h
  split at h
  · exact ComposeResult.noConfusion h
  next hguard =>
    have hg : (pyTruthy r.body || pyTruthy r.body_html) = true := by
      revert hguard
      cases pyTruthy r.body <;> cases pyTruthy r.body_html <;> simp
    split at h
    · exact ComposeResult.noConfusion h
    next hfb =>
      split at h
      next hnil =>
        injection h with h1 h2
        subst h1
        subst h2
        exact ⟨hg, hfb, rfl, rfl, .inl ⟨hnil, rfl⟩⟩
      next p ps hcons =>
        split at h
        · exact ComposeResult.noConfusion h
        next atts hatts =>
          injection h with h1 h2
          subst h1
          subst h2
          exact ⟨hg, hfb, rfl, rfl, .inr ⟨by simp [hcons], atts, hatts, rfl⟩⟩


theorem compose_missingBody (now : Nat) (cfg : EmailConfig) (fs : FS) (guess : GuessFn)
    (r : SendRequest) (hb : pyTruthy r.body = false) (hh : pyTruthy r.body_html = false) :
    compose now cfg fs guess r = .err .missingBody := by
  unfold compose
  rw [hb, hh]
  rfl

theorem compose_err_of_firstBad (now : Nat) (cfg : EmailConfig) (fs : FS) (guess : GuessFn)
    (r : SendRequest) (e : SendError)
    (hg : (pyTruthy r.body || pyTruthy r.body_html) = true)
    (hfb : firstBadAttachment fs r.attachments = some e) :
    compose now cfg fs guess r = .err e := by
  unfold compose
  have hguard : (!(pyTruthy r.body) && !(pyTruthy r.body_html)) = false := by
    revert hg
    cases pyTruthy r.body <;> cases pyTruthy r.body_html <;> simp
  rw [hguard, hfb]
  rfl

theorem send_email_of_compose_err (now : Nat) (cfg : EmailConfig) (fs : FS) (guess : GuessFn)
    (transport : ComposedMessage → List String → TransportOutcome)
    (r : SendRequest) (e : SendError)
    (hc : compose now cfg fs guess r = .err e) :
    send_email now cfg fs guess transport r =
      { success := false, transportCalls := [], error := some e } := by
  unfold send_email
  rw [hc]

theorem send_email_of_transport_fail (now : Nat) (cfg : EmailConfig) (fs : FS) (guess : GuessFn)
    (transport : ComposedMessage → List String → TransportOutcome)
    (r : SendRequest) (m : ComposedMessage) (recips : List String)
    (hc : compose now cfg fs guess r = .ok m recips)
    (hf : transport m recips ≠ .delivered) :
    send_email now cfg fs guess transport r =
      { success := false, transportCalls := [recips], error := some .transportError } := by
  cases ht : transport m recips with
  | delivered => exact absurd ht hf
  | connectError => simp [send_email, hc, ht]
  | tlsError => simp [send_email, hc, ht]
  | authError => simp [send_email, hc, ht]
  | transmitError => simp [send_email, hc, ht]

theorem firstBad_of_bad (fs : FS) (l : List String) (p : String) (hp : p ∈ l)
    (hbad : fs.isRegularFile p = false) :
    ∃ q, q ∈ l ∧
      ((fs.pathExists q = false ∧
          firstBadAttachment fs l = some (.attachmentNotFound q)) ∨
       (fs.pathExists q = true ∧ fs.isRegularFile q = false ∧
          firstBadAttachment fs l = some (.attachmentNotAFile q))) := by
  induction l with
  | nil => exact absurd hp (by simp)
  | cons q' l' ih =>
    cases hex : fs.pathExists q' with
    | false =>
      exact ⟨q', by simp, .inl ⟨hex, by simp [firstBadAttachment, hex]⟩⟩
    | true =>
      cases hreg : fs.isRegularFile q' with
      | false =>
        exact ⟨q', by simp, .inr ⟨hex, hreg, by simp [firstBadAttachment, hex, hreg]⟩⟩
      | true =>
        have hpl : p ∈ l' := by
          rcases List.mem_cons.mp hp with h1 | h1
          · rw [h1] at hbad; rw [hbad] at hreg; exact absurd hreg (by simp)
          · exact h1
        rcases ih hpl with ⟨q, hq1, hq2⟩
        refine ⟨q, by simp [hq1], ?_⟩
        have hstep : firstBadAttachment fs (q' :: l') = firstBadAttachment fs l' := by
          simp [firstBadAttachment, hex, hreg]
        rcases hq2 with ⟨h1, h2⟩ | ⟨h1, h2, h3⟩
        · exact .inl ⟨h1, by rw [hstep]; exact h2⟩
        · exact .inr ⟨h1, h2, by rw [hstep]; exact h3⟩

theorem buildAttachment_inv (fs : FS) (guess : GuessFn) (p : String) (a : AttachmentPart)
    (h : buildAttachment fs guess p = some a) :
    ∃ content, fs.find p = some (.file content) ∧
      a.payloadB64 = encodebytes content ∧
      a.contentDisposition = "attachment; filename=" ++ pathName p ∧
      splitSlash1 (guessedContentType guess p) = some (a.maintype, a.subtype) := by
  unfold buildAttachment at h
  split at h
  next content mt st hfind hsplit =>
    injection h with h1
    subst h1
    exact ⟨content, hfind, rfl, rfl, hsplit⟩
  next => exact Option.noConfusion h

theorem guessedContentType_fallback (guess : GuessFn) (p : String)
    (h : (guess p).1 = none ∨ (guess p).2 ≠ none) :
    guessedContentType guess p = "application/octet-stream" := by
  unfold guessedContentType
  rcases h with h1 | h1
  · simp [h1]
  · have : (guess p).2.isSome = true := Option.isSome_iff_ne_none.mpr h1
    simp [this]


theorem effBody_fallback (r : SendRequest)
    (hb : pyTruthy r.body = false) (hh : pyTruthy r.body_html = true) :
    effBody r =
      (if pyStrip (stripTags (r.body_html.getD "")) == "" then htmlFallbackPlaceholder
       else pyStrip (stripTags (r.body_html.getD ""))) := by
  unfold effBody
  rw [hb, hh]
  rfl

theorem firstPlainText_of_ok (now : Nat) (cfg : EmailConfig) (fs : FS) (guess : GuessFn)
    (r : SendRequest) (m : ComposedMessage) (recips : List String)
    (hh : pyTruthy r.body_html = true)
    (h : compose now cfg fs guess r = .ok m recips) :
    MimeTree.firstPlainText m.tree = some (effBody r) := by
  rcases compose_ok_shape now cfg fs guess r m recips h with ⟨_, _, _, _, hshape⟩
  rcases hshape with ⟨_, htree⟩ | ⟨_, atts, _, htree⟩
  · rw [htree]; unfold bodyPartOf; rw [hh]; rfl
  · rw [htree]; unfold bodyPartOf; rw [hh]; rfl


/-- Claim C1: the composed structure follows the stated precedence — with
attachments the outer container is a mixed multipart whose first part is
the body (a plain-text part, or an alternative part holding plain then
HTML) followed by one part per attachment in input order; with no
attachments but HTML an alternative multipart holding plain then HTML;
with neither, a single plain-text part. -/
theorem claim_C1 (now : Nat) (cfg : EmailConfig) (fs : FS) (guess : GuessFn)
    (r : SendRequest) (m : ComposedMessage) (recips : List String)
    (h : compose now cfg fs guess r = .ok m recips) :
    (r.attachments ≠ [] →
      ∃ atts, buildAttachments fs guess r.attachments = .ok atts ∧
        atts.length = r.attachments.length ∧
        m.tree = .multipart "mixed"
          ((if pyTruthy r.body_html then
              MimeTree.multipart "alternative"
                [.text "plain" (effBody r), .text "html" (r.body_html.getD "")]
            else .text "plain" (effBody r)) :: atts.map MimeTree.attachment) ∧
        (∀ (i : Nat) (hi : i < r.attachments.length) (hj : i < atts.length),
          buildAttachment fs guess (r.attachments.get ⟨i, hi⟩) = some (atts.get ⟨i, hj⟩))) ∧
    (r.attachments = [] → pyTruthy r.body_html = true →
      m.tree = .multipart "alternative"
        [.text "plain" (effBody r), .text "html" (r.body_html.getD "")]) ∧
    (r.attachments = [] → pyTruthy r.body_html = false →
      m.tree = .text "plain" (effBody r)) := by
  rcases compose_ok_shape now cfg fs guess r m recips h with ⟨_, _, _, _, hshape⟩
  refine ⟨?_, ?_, ?_⟩
  · intro hne
    rcases hshape with ⟨heq, _⟩ | ⟨_, atts, hatts, htree⟩
    · exact absurd heq hne
    · exact ⟨atts, hatts, buildAttachments_length fs guess _ atts hatts,
        by rw [htree]; rfl,
        buildAttachments_get fs guess _ atts hatts⟩
  · intro hnil hh
    rcases hshape with ⟨_, htree⟩ | ⟨hne, _⟩
    · rw [htree]; unfold bodyPartOf; rw [hh]; rfl
    · exact absurd hnil hne
  · intro hnil hh
    rcases hshape with ⟨_, htree⟩ | ⟨hne, _⟩
    · rw [htree]; unfold bodyPartOf; rw [hh]; rfl
    · exact absurd hnil hne

/-- Witness for C1 at a concrete request with both bodies, cc, bcc and
one attachment over the example file system. -/
theorem claim_C1_witness :
    compose 0 exCfg exFS exGuess reqWithAtt = .ok exMsgWithAtt exRecipsWithAtt ∧
    ((reqWithAtt.attachments ≠ [] →
      ∃ atts, buildAttachments exFS exGuess reqWithAtt.attachments = .ok atts ∧
        atts.length = reqWithAtt.attachments.length ∧
        exMsgWithAtt.tree = .multipart "mixed"
          ((if pyTruthy reqWithAtt.body_html then
              MimeTree.multipart "alternative"
                [.text "plain" (effBody reqWithAtt),
                 .text "html" (reqWithAtt.body_html.getD "")]
            else .text "plain" (effBody reqWithAtt)) :: atts.map MimeTree.attachment) ∧
        (∀ (i : Nat) (hi : i < reqWithAtt.attachments.length) (hj : i < atts.length),
          buildAttachment exFS exGuess (reqWithAtt.attachments.get ⟨i, hi⟩) =
            some (atts.get ⟨i, hj⟩))) ∧
    (reqWithAtt.attachments = [] → pyTruthy reqWithAtt.body_html = true →
      exMsgWithAtt.tree = .multipart "alternative"
        [.text "plain" (effBody reqWithAtt), .text "html" (reqWithAtt.body_html.getD "")]) ∧
    (reqWithAtt.attachments = [] → pyTruthy reqWithAtt.body_html = false →
      exMsgWithAtt.tree = .text "plain" (effBody reqWithAtt))) :=
  ⟨rfl, claim_C1 0 exCfg exFS exGuess reqWithAtt exMsgWithAtt exRecipsWithAtt rfl⟩

/-- Claim C2: when both the plain-text and the HTML body are absent, the
send fails with the missing-body error and the transport is never
invoked. -/
theorem claim_C2 (now : Nat) (cfg : EmailConfig) (fs : FS) (guess : GuessFn)
    (transport : ComposedMessage → List String → TransportOutcome)
    (r : SendRequest) (hb : r.body = none) (hh : r.body_html = none) :
    (send_email now cfg fs guess transport r).success = false ∧
    (send_email now cfg fs guess transport r).transportCalls = [] ∧
    (send_email now cfg fs guess transport r).error = some .missingBody := by
  have hc := compose_missingBody now cfg fs guess r (by rw [hb]; rfl) (by rw [hh]; rfl)
  rw [send_email_of_compose_err now cfg fs guess transport r _ hc]
  exact ⟨rfl, rfl, rfl⟩

/-- Witness for C2 at the concrete body-less request. -/
theorem claim_C2_witness :
    reqNoBody.body = none ∧ reqNoBody.body_html = none ∧
    ((send_email 0 exCfg exFS exGuess txOk reqNoBody).success = false ∧
     (send_email 0 exCfg exFS exGuess txOk reqNoBody).transportCalls = [] ∧
     (send_email 0 exCfg exFS exGuess txOk reqNoBody).error = some .missingBody) :=
  ⟨rfl, rfl, claim_C2 0 exCfg exFS exGuess txOk reqNoBody rfl rfl⟩

/-- Claim C3: when HTML is present and plain text absent, the plain part
of the composed message is the HTML with markup tags stripped (trimmed),
or the fixed placeholder when stripping leaves nothing. -/
theorem claim_C3 (now : Nat) (cfg : EmailConfig) (fs : FS) (guess : GuessFn)
    (r : SendRequest) (m : ComposedMessage) (recips : List String)
    (hb : r.body = none) (hh : pyTruthy r.body_html = true)
    (h : compose now cfg fs guess r = .ok m recips) :
    MimeTree.firstPlainText m.tree =
      some (if pyStrip (stripTags (r.body_html.getD "")) == "" then htmlFallbackPlaceholder
            else pyStrip (stripTags (r.body_html.getD ""))) := by
  rw [firstPlainText_of_ok now cfg fs guess r m recips hh h]
  rw [effBody_fallback r (by rw [hb]; rfl) hh]

/-- Witness for C3: body absent and html a paragraph holding "Hi" derive
the plain body "Hi". -/
theorem claim_C3_witness :
    MimeTree.firstPlainText
      ((compose 0 exCfg exFS exGuess reqHtmlOnly).msgOr emptyMsg).tree = some "Hi" :=
  claim_C3 0 exCfg exFS exGuess reqHtmlOnly
    ((compose 0 exCfg exFS exGuess reqHtmlOnly).msgOr emptyMsg)
    ((compose 0 exCfg exFS exGuess reqHtmlOnly).recipientsOr [])
    rfl rfl rfl


/-- Claim C4: with a valid body, any attachment path that is missing or
is not a regular file makes the send fail before any transport call, and
the reported error names an offending path with the matching kind —
not-found for a path that does not exist, not-a-file for one that exists
but is not a regular file. -/
theorem claim_C4 (now : Nat) (cfg : EmailConfig) (fs : FS) (guess : GuessFn)
    (transport : ComposedMessage → List String → TransportOutcome)
    (r : SendRequest)
    (hbody : (pyTruthy r.body || pyTruthy r.body_html) = true)
    (p : String) (hp : p ∈ r.attachments) (hbad : fs.isRegularFile p = false) :
    (send_email now cfg fs guess transport r).success = false ∧
    (send_email now cfg fs guess transport r).transportCalls = [] ∧
    ∃ q, q ∈ r.attachments ∧
      ((fs.pathExists q = false ∧
         (send_email now cfg fs guess transport r).error = some (.attachmentNotFound q)) ∨
       (fs.pathExists q = true ∧ fs.isRegularFile q = false ∧
         (send_email now cfg fs guess transport r).error = some (.attachmentNotAFile q))) := by
  rcases firstBad_of_bad fs r.attachments p hp hbad with ⟨q, hq1, hq2⟩
  rcases hq2 with ⟨h1, h2⟩ | ⟨h1, h2, h3⟩
  · have hc := compose_err_of_firstBad now cfg fs guess r _ hbody h2
    rw [send_email_of_compose_err now cfg fs guess transport r _ hc]
    exact ⟨rfl, rfl, q, hq1, .inl ⟨h1, rfl⟩⟩
  · have hc := compose_err_of_firstBad now cfg fs guess r _ hbody h3
    rw [send_email_of_compose_err now cfg fs guess transport r _ hc]
    exact ⟨rfl, rfl, q, hq1, .inr ⟨h1, h2, rfl⟩⟩

/-- Witness for C4 at a request naming a non-existent attachment path. -/
theorem claim_C4_witness :
    (pyTruthy reqMissingAtt.body || pyTruthy reqMissingAtt.body_html) = true ∧
    "missing.txt" ∈ reqMissingAtt.attachments ∧
    exFS.isRegularFile "missing.txt" = false ∧
    ((send_email 0 exCfg exFS exGuess txOk reqMissingAtt).success = false ∧
     (send_email 0 exCfg exFS exGuess txOk reqMissingAtt).transportCalls = [] ∧
     ∃ q, q ∈ reqMissingAtt.attachments ∧
       ((exFS.pathExists q = false ∧
          (send_email 0 exCfg exFS exGuess txOk reqMissingAtt).error =
            some (.attachmentNotFound q)) ∨
        (exFS.pathExists q = true ∧ exFS.isRegularFile q = false ∧
          (send_email 0 exCfg exFS exGuess txOk reqMissingAtt).error =
            some (.attachmentNotAFile q)))) :=
  ⟨rfl, by decide, rfl,
   claim_C4 0 exCfg exFS exGuess txOk reqMissingAtt rfl "missing.txt" (by decide) rfl⟩

/-- Claim C5: the composed headers are exactly subject, the from value
(override, else configured default sender, else account address), the
comma-joined to list, and a comma-joined cc only when cc recipients are
present; no Bcc header is ever written, yet bcc recipients are part of
the transport recipient list after to and cc. -/
theorem claim_C5 (now : Nat) (cfg : EmailConfig) (fs : FS) (guess : GuessFn)
    (r : SendRequest) (m : ComposedMessage) (recips : List String)
    (h : compose now cfg fs guess r = .ok m recips) :
    m.headers =
      [("Subject", r.subject),
       ("From", pyOrS (r.from_address.getD "") (pyOrS cfg.default_sender cfg.gmail_address)),
       ("To", joinWith ", " r.to)]
      ++ (if r.cc.isEmpty then [] else [("Cc", joinWith ", " r.cc)]) ∧
    (∀ v, ("Bcc", v) ∉ m.headers) ∧
    recips = r.to ++ r.cc ++ r.bcc := by
  rcases compose_ok_shape now cfg fs guess r m recips h with ⟨_, _, hrecips, hheaders, _⟩
  refine ⟨hheaders, ?_, hrecips⟩
  intro v hv
  rw [hheaders] at hv
  cases hcc : r.cc.isEmpty <;> simp [composeHeaders, hcc] at hv

/-- Witness for C5 at the concrete request with cc and bcc. -/
theorem claim_C5_witness :
    exMsgWithAtt.headers =
      [("Subject", reqWithAtt.subject),
       ("From", pyOrS (reqWithAtt.from_address.getD "")
                  (pyOrS exCfg.default_sender exCfg.gmail_address)),
       ("To", joinWith ", " reqWithAtt.to)]
      ++ (if reqWithAtt.cc.isEmpty then [] else [("Cc", joinWith ", " reqWithAtt.cc)]) ∧
    (∀ v, ("Bcc", v) ∉ exMsgWithAtt.headers) ∧
    exRecipsWithAtt = reqWithAtt.to ++ reqWithAtt.cc ++ reqWithAtt.bcc :=
  claim_C5 0 exCfg exFS exGuess reqWithAtt exMsgWithAtt exRecipsWithAtt rfl

/-- Claim C6: any transport failure is reported to the caller as the
boolean false rather than a propagated exception (the send function is
total), exactly one transport attempt is made (no retry), and the result
carries no partial-success state. -/
theorem claim_C6 (now : Nat) (cfg : EmailConfig) (fs : FS) (guess : GuessFn)
    (transport : ComposedMessage → List String → TransportOutcome)
    (r : SendRequest) (m : ComposedMessage) (recips : List String)
    (hc : compose now cfg fs guess r = .ok m recips)
    (hf : transport m recips ≠ .delivered) :
    (send_email now cfg fs guess transport r).success = false ∧
    (send_email now cfg fs guess transport r).transportCalls = [recips] ∧
    (send_email now cfg fs guess transport r).error = some .transportError := by
  rw [send_email_of_transport_fail now cfg fs guess transport r m recips hc hf]
  exact ⟨rfl, rfl, rfl⟩

/-- Witness for C6 at a concrete request with an authentication-failing
transport. -/
theorem claim_C6_witness :
    compose 0 exCfg exFS exGuess reqPlainOnly = .ok exMsgPlainOnly exRecipsPlainOnly ∧
    txAuthFail exMsgPlainOnly exRecipsPlainOnly ≠ .delivered ∧
    ((send_email 0 exCfg exFS exGuess txAuthFail reqPlainOnly).success = false ∧
     (send_email 0 exCfg exFS exGuess txAuthFail reqPlainOnly).transportCalls =
       [exRecipsPlainOnly] ∧
     (send_email 0 exCfg exFS exGuess txAuthFail reqPlainOnly).error =
       some .transportError) :=
  ⟨rfl, by decide,
   claim_C6 0 exCfg exFS exGuess txAuthFail reqPlainOnly exMsgPlainOnly exRecipsPlainOnly
     rfl (by decide)⟩

/-- Claim C7: each attachment of a successfully composed message yields a
part among the children of the mixed container carrying the guessed
content type (falling back to the generic binary type when the guess is
missing or reports an encoding), an attachment content-disposition with
the original file name, and the base64-encoded file content. -/
theorem claim_C7 (now : Nat) (cfg : EmailConfig) (fs : FS) (guess : GuessFn)
    (r : SendRequest) (m : ComposedMessage) (recips : List String)
    (h : compose now cfg fs guess r = .ok m recips)
    (p : String) (hp : p ∈ r.attachments) :
    ∃ a content,
      fs.find p = some (.file content) ∧
      MimeTree.attachment a ∈ m.tree.children ∧
      a.contentDisposition = "attachment; filename=" ++ pathName p ∧
      a.payloadB64 = encodebytes content ∧
      splitSlash1 (guessedContentType guess p) = some (a.maintype, a.subtype) ∧
      ((guess p).1 = none ∨ (guess p).2 ≠ none →
        a.maintype = "application" ∧ a.subtype = "octet-stream") := by
  rcases compose_ok_shape now cfg fs guess r m recips h with ⟨_, _, _, _, hshape⟩
  rcases hshape with ⟨hnil, _⟩ | ⟨_, atts, hatts, htree⟩
  · rw [hnil] at hp; exact absurd hp (by simp)
  · rcases buildAttachments_mem fs guess r.attachments atts hatts p hp with ⟨a, ha, hba⟩
    rcases buildAttachment_inv fs guess p a hba with ⟨content, hfind, hpay, hdisp, hsplit⟩
    refine ⟨a, content, hfind, ?_, hdisp, hpay, hsplit, ?_⟩
    · rw [htree]
      simp only [MimeTree.children]
      exact List.mem_cons_of_mem _ (List.mem_map_of_mem _ ha)
    · intro hfb
      have hct := guessedContentType_fallback guess p hfb
      rw [hct] at hsplit
      have hoct : splitSlash1 "application/octet-stream" =
          some ("application", "octet-stream") := by decide
      rw [hoct] at hsplit
      injection hsplit with h1
      injection h1 with h2 h3
      exact ⟨h2.symm, h3.symm⟩

/-- Witness for C7 at the concrete request attaching "docs/report.txt". -/
theorem claim_C7_witness :
    compose 0 exCfg exFS exGuess reqWithAtt = .ok exMsgWithAtt exRecipsWithAtt ∧
    "docs/report.txt" ∈ reqWithAtt.attachments ∧
    (∃ a content,
      exFS.find "docs/report.txt" = some (.file content) ∧
      MimeTree.attachment a ∈ exMsgWithAtt.tree.children ∧
      a.contentDisposition = "attachment; filename=" ++ pathName "docs/report.txt" ∧
      a.payloadB64 = encodebytes content ∧
      splitSlash1 (guessedContentType exGuess "docs/report.txt") =
        some (a.maintype, a.subtype) ∧
      ((exGuess "docs/report.txt").1 = none ∨ (exGuess "docs/report.txt").2 ≠ none →
        a.maintype = "application" ∧ a.subtype = "octet-stream")) :=
  ⟨rfl, by decide,
   claim_C7 0 exCfg exFS exGuess reqWithAtt exMsgWithAtt exRecipsWithAtt rfl
     "docs/report.txt" (by decide)⟩


/-- Claim C8: composition is deterministic in the ambient time — two
calls with an identical request at different wall-clock instants yield
structurally identical output (same tree, same part ordering, same
headers): the composer never reads the clock, so no timestamp-dependent
content can appear. -/
theorem claim_C8 (t1 t2 : Nat) (cfg : EmailConfig) (fs : FS) (guess : GuessFn)
    (r : SendRequest) :
    compose t1 cfg fs guess r = compose t2 cfg fs guess r := rfl

/-- Claim C9: an empty-string plain body is treated as absent — with a
truthy HTML body the plain part becomes the HTML-derived fallback, and
with no truthy HTML body the send takes the missing-body failure path,
returning false with no transport call. -/
theorem claim_C9 (now : Nat) (cfg : EmailConfig) (fs : FS) (guess : GuessFn)
    (transport : ComposedMessage → List String → TransportOutcome)
    (r : SendRequest) (hb : r.body = some "") :
    (pyTruthy r.body_html = true →
      ∀ m recips, compose now cfg fs guess r = .ok m recips →
        MimeTree.firstPlainText m.tree =
          some (if pyStrip (stripTags (r.body_html.getD "")) == "" then htmlFallbackPlaceholder
                else pyStrip (stripTags (r.body_html.getD "")))) ∧
    (pyTruthy r.body_html = false →
      (send_email now cfg fs guess transport r).success = false ∧
      (send_email now cfg fs guess transport r).transportCalls = [] ∧
      (send_email now cfg fs guess transport r).error = some .missingBody) := by
  have hbf : pyTruthy r.body = false := by rw [hb]; rfl
  constructor
  · intro hh m recips h
    rw [firstPlainText_of_ok now cfg fs guess r m recips hh h]
    rw [effBody_fallback r hbf hh]
  · intro hh
    have hc := compose_missingBody now cfg fs guess r hbf hh
    rw [send_email_of_compose_err now cfg fs guess transport r _ hc]
    exact ⟨rfl, rfl, rfl⟩

/-- Witness for C9 at the concrete request with an empty plain body and
an HTML body. -/
theorem claim_C9_witness :
    reqEmptyBodyHtml.body = some "" ∧
    ((pyTruthy reqEmptyBodyHtml.body_html = true →
      ∀ m recips, compose 0 exCfg exFS exGuess reqEmptyBodyHtml = .ok m recips →
        MimeTree.firstPlainText m.tree =
          some (if pyStrip (stripTags (reqEmptyBodyHtml.body_html.getD "")) == ""
                then htmlFallbackPlaceholder
                else pyStrip (stripTags (reqEmptyBodyHtml.body_html.getD "")))) ∧
    (pyTruthy reqEmptyBodyHtml.body_html = false →
      (send_email 0 exCfg exFS exGuess txOk reqEmptyBodyHtml).success = false ∧
      (send_email 0 exCfg exFS exGuess txOk reqEmptyBodyHtml).transportCalls = [] ∧
      (send_email 0 exCfg exFS exGuess txOk reqEmptyBodyHtml).error = some .missingBody)) :=
  ⟨rfl, claim_C9 0 exCfg exFS exGuess txOk reqEmptyBodyHtml rfl⟩

/-- Claim C10: every job registered through the daily, weekly or interval
scheduling methods carries a request whose attachment list is empty — the
closures pass no attachments to the send operation. -/
theorem claim_C10 (time_str day : String) (interval_minutes : Nat)
    (recipients : List String) (subject : String) (body body_html : Option String) :
    (schedule_daily time_str recipients subject body body_html).request.attachments = [] ∧
    (schedule_weekly day time_str recipients subject body body_html).request.attachments = [] ∧
    (schedule_interval interval_minutes recipients subject body
        body_html).request.attachments = [] :=
  ⟨rfl, rfl, rfl⟩

end Pmail
